import Mathlib

/-
Verification development for the Injection-optimizer repository
(src/Home.py, src/pages/*.py).

Each Streamlit page builds a Pyomo linear / mixed-integer model from
scenario parameters, hands it to an external solver, and renders the
solution.  The embedding below translates the model-building code:
Python floats become exact rationals, Pyomo decision variables become
total functions on the index types, each Pyomo `Constraint` rule becomes
a `Prop`, each `Objective` rule a rational-valued function, and the
result-rendering `if/else` on the termination condition becomes a pure
function from a status to a page output.  Feasibility of a candidate
point is the conjunction of the variable-domain conditions and all
constraint rules, quantified over the declared index lists exactly as
the Pyomo `Var`/`Constraint` declarations index them.
-/

/-! ## Production Scheduling

Two variants: `src/pages/1_Production_Scheduling.py` (with a slack
variable and a slack penalty) and `src/pages/production_scheduling_app.py`
(no slack, changeover term weighted by 5). -/

/-- Scenario parameters of the Production Scheduling pages:
jobs, machines, per-job demand, per-pair cycle time in seconds,
changeover time in minutes, per-machine available hours. -/
structure PSParams where
  jobs : List String
  machines : List String
  demand : String → ℚ
  cycle_time : String → String → ℚ
  changeover_time : ℚ
  available_hours : String → ℚ

/-- A candidate point for the Production Scheduling decision variables
`model.production`, `model.assignment`, `model.slack`. -/
structure PSSol where
  production : String → String → ℚ
  assignment : String → String → ℚ
  slack : String → ℚ

/-- The `prod_time` summand of `objective_rule` in
`1_Production_Scheduling.py`: `production[j,m] * cycle_time[j,m] / 3600`
summed over jobs and machines. -/
def psProdTime (P : PSParams) (s : PSSol) : ℚ :=
  (P.jobs.map (fun j =>
    (P.machines.map (fun m => s.production j m * P.cycle_time j m / 3600)).sum)).sum

/-- The `penalty` summand of `objective_rule` in
`1_Production_Scheduling.py`: `slack[j] * 10` summed over jobs. -/
def psSlackPenalty (P : PSParams) (s : PSSol) : ℚ :=
  (P.jobs.map (fun j => s.slack j * 10)).sum

/-- `objective_rule` of `1_Production_Scheduling.py`:
prod_time + setup_time + penalty, written out as in the source. -/
def psObjective (P : PSParams) (s : PSSol) : ℚ :=
  (P.jobs.map (fun j =>
    (P.machines.map (fun m => s.production j m * P.cycle_time j m / 3600)).sum)).sum
  + (P.jobs.map (fun j =>
      (P.machines.map (fun m => s.assignment j m * P.changeover_time / 60)).sum)).sum
  + (P.jobs.map (fun j => s.slack j * 10)).sum

/-- `objective_rule` of `production_scheduling_app.py`:
`prod_cost + changeover_cost` where `changeover_cost` is
`sum(assignment[j,m] * changeover_time / 60) * 5`. -/
def psAppObjective (P : PSParams) (s : PSSol) : ℚ :=
  (P.jobs.map (fun j =>
    (P.machines.map (fun m => s.production j m * P.cycle_time j m / 3600)).sum)).sum
  + (P.jobs.map (fun j =>
      (P.machines.map (fun m => s.assignment j m * P.changeover_time / 60)).sum)).sum * 5

/-- Modelled from the spec: the changeover term of the objective as the
spec states it, "the sum over all job-machine pairs (j,m) of
assignment[j,m] × changeover_time / 60" with no additional weighting. -/
def specChangeoverTerm (P : PSParams) (s : PSSol) : ℚ :=
  (P.jobs.map (fun j =>
    (P.machines.map (fun m => s.assignment j m * P.changeover_time / 60)).sum)).sum

/-- `demand_rule` of `1_Production_Scheduling.py`:
production summed over machines plus slack covers demand, per job. -/
def psDemandOk (P : PSParams) (s : PSSol) : Prop :=
  ∀ j ∈ P.jobs,
    (P.machines.map (fun m => s.production j m)).sum + s.slack j ≥ P.demand j

/-- `capacity_rule` (identical in both Production Scheduling variants):
production time plus setup time on a machine stays within its
available hours. -/
def psCapacityOk (P : PSParams) (s : PSSol) : Prop :=
  ∀ m ∈ P.machines,
    (P.jobs.map (fun j => s.production j m * P.cycle_time j m / 3600)).sum
      + (P.jobs.map (fun j => s.assignment j m)).sum * P.changeover_time / 60
      ≤ P.available_hours m

/-- `assignment_link_rule` (identical in both variants):
`production[j,m] ≤ demand[j] * assignment[j,m]`. -/
def psLinkOk (P : PSParams) (s : PSSol) : Prop :=
  ∀ j ∈ P.jobs, ∀ m ∈ P.machines,
    s.production j m ≤ P.demand j * s.assignment j m

/-- Variable-domain conditions of the `Var` declarations of
`1_Production_Scheduling.py`: production and slack are NonNegativeReals,
assignment is Binary, over the declared index sets. -/
def psVarsOk (P : PSParams) (s : PSSol) : Prop :=
  (∀ j ∈ P.jobs, ∀ m ∈ P.machines, 0 ≤ s.production j m)
  ∧ (∀ j ∈ P.jobs, ∀ m ∈ P.machines,
      s.assignment j m = 0 ∨ s.assignment j m = 1)
  ∧ (∀ j ∈ P.jobs, 0 ≤ s.slack j)

/-- Feasibility for the `1_Production_Scheduling.py` model: variable
domains plus `demand_constraint`, `capacity_constraint`,
`assignment_link`. -/
def psFeasible (P : PSParams) (s : PSSol) : Prop :=
  psVarsOk P s ∧ psDemandOk P s ∧ psCapacityOk P s ∧ psLinkOk P s

/-- Default (Streamlit widget default) parameters of
`1_Production_Scheduling.py`: two jobs, two machines, demand 1000,
cycle time 30 s, changeover 30 min, 200 available hours. -/
def psDefault : PSParams where
  jobs := ["Syringe", "Gloves"]
  machines := ["Arburg_Allrounder_320C", "Engel_Victory_200"]
  demand := fun _ => 1000
  cycle_time := fun _ _ => 30
  changeover_time := 30
  available_hours := fun _ => 200

/-- The hard-coded input data of `production_scheduling_app.py`. -/
def psApp : PSParams where
  jobs := ["JobA", "JobB", "JobC", "JobD"]
  machines := ["IMM_1", "IMM_2", "IMM_3"]
  demand := fun j =>
    if j = "JobA" then 5000 else if j = "JobB" then 3000
    else if j = "JobC" then 4000 else if j = "JobD" then 2000 else 0
  cycle_time := fun j m =>
    if j = "JobA" then (if m = "IMM_1" then 25 else if m = "IMM_2" then 28 else 30)
    else if j = "JobB" then (if m = "IMM_1" then 35 else if m = "IMM_2" then 32 else 38)
    else if j = "JobC" then (if m = "IMM_1" then 20 else if m = "IMM_2" then 22 else 21)
    else (if m = "IMM_1" then 40 else if m = "IMM_2" then 38 else 42)
  changeover_time := 60
  available_hours := fun m =>
    if m = "IMM_1" then 20 else if m = "IMM_2" then 22 else 16

/-! ## Maintenance Scheduling

`src/pages/2_Maintenance_Scheduling.py` (with the failure-risk term) and
`src/pages/maintenance_scheduling_app.py` (without it). -/

/-- Scenario parameters of the Maintenance Scheduling pages.  `weeks`
in the source is `list(range(1, num_weeks + 1))`. -/
structure MntParams where
  machines : List String
  num_weeks : ℕ
  pm_minor_cost : ℚ
  pm_major_cost : ℚ
  downtime_cost_per_hour : ℚ
  failure_penalty : ℚ
  dur_minor : ℚ
  dur_major : ℚ
  labor_available : ℕ → ℚ

/-- The week list `list(range(1, num_weeks+1))` of the source. -/
def MntParams.weeks (P : MntParams) : List ℕ :=
  (List.range P.num_weeks).map (fun k => k + 1)

/-- A candidate point for the binary variables `model.pm_minor` and
`model.pm_major`. -/
structure MntSol where
  pm_minor : String → ℕ → ℚ
  pm_major : String → ℕ → ℚ

/-- Binary variable domains of the maintenance model, over the declared
machine × week index set. -/
def mntVarsOk (P : MntParams) (s : MntSol) : Prop :=
  (∀ m ∈ P.machines, ∀ w ∈ P.weeks,
    s.pm_minor m w = 0 ∨ s.pm_minor m w = 1)
  ∧ (∀ m ∈ P.machines, ∀ w ∈ P.weeks,
    s.pm_major m w = 0 ∨ s.pm_major m w = 1)

/-- `labor_rule` of `2_Maintenance_Scheduling.py`: weekly labor hours
consumed by scheduled tasks stay within the weekly availability. -/
def mntLaborOk (P : MntParams) (s : MntSol) : Prop :=
  ∀ w ∈ P.weeks,
    (P.machines.map (fun m =>
      s.pm_minor m w * P.dur_minor + s.pm_major m w * P.dur_major)).sum
    ≤ P.labor_available w

/-- One machine-week summand of the `failure_cost` accumulation in
`objective_rule` of `2_Maintenance_Scheduling.py`:
`(1 - pm_minor[m,w] - pm_major[m,w]) * (failure_penalty * (w/num_weeks))`. -/
def mntFailContrib (P : MntParams) (s : MntSol) (m : String) (w : ℕ) : ℚ :=
  (1 - s.pm_minor m w - s.pm_major m w)
    * (P.failure_penalty * ((w : ℚ) / (P.num_weeks : ℚ)))

/-- `objective_rule` of `2_Maintenance_Scheduling.py`:
pm cost + downtime cost + accumulated failure cost. -/
def mntObjective (P : MntParams) (s : MntSol) : ℚ :=
  (P.machines.map (fun m => (P.weeks.map (fun w =>
    s.pm_minor m w * P.pm_minor_cost + s.pm_major m w * P.pm_major_cost)).sum)).sum
  + (P.machines.map (fun m => (P.weeks.map (fun w =>
      (s.pm_minor m w * P.dur_minor + s.pm_major m w * P.dur_major)
        * P.downtime_cost_per_hour)).sum)).sum
  + (P.machines.map (fun m => (P.weeks.map (fun w =>
      mntFailContrib P s m w)).sum)).sum

/-- Default (widget default) parameters of `2_Maintenance_Scheduling.py`:
two machines, 8 weeks, minor cost 500, major cost 2000, downtime 300/h,
failure penalty 3000, durations 2 h and 8 h, 40 labor hours per week. -/
def mntDefault : MntParams where
  machines := ["Arburg_Allrounder_320C", "Engel_Victory_200"]
  num_weeks := 8
  pm_minor_cost := 500
  pm_major_cost := 2000
  downtime_cost_per_hour := 300
  failure_penalty := 3000
  dur_minor := 2
  dur_major := 8
  labor_available := fun _ => 40

/-! ## Material Blending

`src/pages/3_Material_Blending.py` and
`src/pages/material_blending_app.py` build identical constraint shapes
from their material tables. -/

/-- Per-material properties (cost $/kg, tensile strength MPa,
density g/cm³). -/
structure Material where
  cost : ℚ
  strength : ℚ
  density : ℚ

/-- Scenario parameters of the Material Blending pages. -/
structure BlendParams where
  materials : List (String × Material)
  min_strength : ℚ
  max_density : ℚ

/-- The `model.cost` objective: blended cost `sum(x[m] * cost[m])`. -/
def blendCost (P : BlendParams) (x : String → ℚ) : ℚ :=
  (P.materials.map (fun mp => x mp.1 * mp.2.cost)).sum

/-- Blended strength `sum(x[m] * strength[m])` of `model.strength`. -/
def blendStrength (P : BlendParams) (x : String → ℚ) : ℚ :=
  (P.materials.map (fun mp => x mp.1 * mp.2.strength)).sum

/-- Blended density `sum(x[m] * density[m])` of `model.density`. -/
def blendDensity (P : BlendParams) (x : String → ℚ) : ℚ :=
  (P.materials.map (fun mp => x mp.1 * mp.2.density)).sum

/-- Sum of fractions `sum(x[m])` of the `model.mix` constraint. -/
def blendMixSum (P : BlendParams) (x : String → ℚ) : ℚ :=
  (P.materials.map (fun mp => x mp.1)).sum

/-- Feasibility for the blending model: `Var(..., bounds=(0,1))` plus
`model.mix` (fractions sum to 1), `model.strength` (≥ min_strength) and
`model.density` (≤ max_density). -/
def blendFeasible (P : BlendParams) (x : String → ℚ) : Prop :=
  (∀ mp ∈ P.materials, 0 ≤ x mp.1 ∧ x mp.1 ≤ 1)
  ∧ blendMixSum P x = 1
  ∧ blendStrength P x ≥ P.min_strength
  ∧ blendDensity P x ≤ P.max_density

/-- The hard-coded material table of `material_blending_app.py` with its
default min_strength 30 and max_density 1.1. -/
def blendApp : BlendParams where
  materials :=
    [("Virgin", ⟨2.5, 35, 1.05⟩),
     ("Regrind", ⟨1.0, 25, 0.95⟩),
     ("Additive", ⟨5.0, 50, 1.2⟩)]
  min_strength := 30
  max_density := 1.1

/-- The default material table of `3_Material_Blending.py` with its
default min_strength 30 and max_density 1.1. -/
def blendPage : BlendParams where
  materials :=
    [("PP_Virgin", ⟨2.5, 35, 1.05⟩),
     ("PP_Regrind", ⟨1.2, 25, 0.95⟩),
     ("GlassFiber_Additive", ⟨5.0, 50, 1.2⟩)]
  min_strength := 30
  max_density := 1.1

/-! ## Capacity Planning

`src/pages/4_Capacity_Planning.py` (production, sales and slack
variables; capacity, labor, demand and sales constraints) and
`src/pages/capacity_planning_app.py` (production and sales variables;
capacity constraint only). -/

/-- Machine time used in a month, shared by both Capacity Planning
variants: `sum(production[p,m,t] * cycle_time.get(..., 0) / 3600)`.
The cycle-time lookup is `Option`-valued and defaults to 0, mirroring
`dict.get(key, 0)` in both sources. -/
def capTimeUsed (products : List String) (cyc : String → String → Option ℚ)
    (production : String → String → ℕ → ℚ) (m : String) (t : ℕ) : ℚ :=
  (products.map (fun p => production p m t * ((cyc p m).getD 0) / 3600)).sum

/-- Scenario parameters of `4_Capacity_Planning.py`. -/
structure CPParams where
  products : List String
  machines : List String
  months : List ℕ
  selling_price : String → ℚ
  material_cost : String → ℚ
  labor_hours : String → ℚ
  max_demand_per_month : String → ℚ
  cycle_time : String → String → Option ℚ
  machine_capacity : String → ℚ
  labor_hours_available : ℚ

/-- A candidate point for the Capacity Planning decision variables
`model.production`, `model.sales`, `model.slack`. -/
structure CPSol where
  production : String → String → ℕ → ℚ
  sales : String → ℕ → ℚ
  slack : String → ℕ → ℚ

/-- `capacity_rule` of `4_Capacity_Planning.py`. -/
def cpCapacityOk (P : CPParams) (s : CPSol) : Prop :=
  ∀ m ∈ P.machines, ∀ t ∈ P.months,
    capTimeUsed P.products P.cycle_time s.production m t ≤ P.machine_capacity m

/-- `labor_rule` of `4_Capacity_Planning.py`. -/
def cpLaborOk (P : CPParams) (s : CPSol) : Prop :=
  ∀ t ∈ P.months,
    (P.products.map (fun p => (P.machines.map (fun m =>
      s.production p m t * P.labor_hours p)).sum)).sum
    ≤ P.labor_hours_available

/-- `demand_rule` of `4_Capacity_Planning.py`:
`sales[p,t] + slack[p,t] ≤ max_demand_per_month[p]`. -/
def cpDemandOk (P : CPParams) (s : CPSol) : Prop :=
  ∀ p ∈ P.products, ∀ t ∈ P.months,
    s.sales p t + s.slack p t ≤ P.max_demand_per_month p

/-- `sales_rule` of `4_Capacity_Planning.py`:
`sales[p,t] ≤ sum(production[p,m,t] for m in machines)`. -/
def cpSalesOk (P : CPParams) (s : CPSol) : Prop :=
  ∀ p ∈ P.products, ∀ t ∈ P.months,
    s.sales p t ≤ (P.machines.map (fun m => s.production p m t)).sum

/-- NonNegativeReals variable domains of `4_Capacity_Planning.py` over
the declared index sets. -/
def cpVarsOk (P : CPParams) (s : CPSol) : Prop :=
  (∀ p ∈ P.products, ∀ m ∈ P.machines, ∀ t ∈ P.months, 0 ≤ s.production p m t)
  ∧ (∀ p ∈ P.products, ∀ t ∈ P.months, 0 ≤ s.sales p t)
  ∧ (∀ p ∈ P.products, ∀ t ∈ P.months, 0 ≤ s.slack p t)

/-- Feasibility for the `4_Capacity_Planning.py` model. -/
def cpFeasible (P : CPParams) (s : CPSol) : Prop :=
  cpVarsOk P s ∧ cpCapacityOk P s ∧ cpLaborOk P s ∧ cpDemandOk P s ∧ cpSalesOk P s

/-- Scenario parameters of `capacity_planning_app.py` (no labor, demand
or slack data in this variant). -/
structure CPAppParams where
  products : List String
  machines : List String
  months : List ℕ
  selling_price : String → ℚ
  material_cost : String → ℚ
  cycle_time : String → String → Option ℚ
  machine_capacity : String → ℚ

/-- Feasibility for the `capacity_planning_app.py` model: NonNegativeReals
domains for `model.production` and `model.sales` plus `capacity_rule`.
The model declares no other constraint: `model.sales` appears only in the
objective. -/
def cpAppFeasible (P : CPAppParams) (s : CPSol) : Prop :=
  (∀ p ∈ P.products, ∀ m ∈ P.machines, ∀ t ∈ P.months, 0 ≤ s.production p m t)
  ∧ (∀ p ∈ P.products, ∀ t ∈ P.months, 0 ≤ s.sales p t)
  ∧ (∀ m ∈ P.machines, ∀ t ∈ P.months,
      capTimeUsed P.products P.cycle_time s.production m t ≤ P.machine_capacity m)

/-- The hard-coded input data of `capacity_planning_app.py`.  Note
`cycle_time[('PartY','IMM_100T')] = 0` in the source. -/
def cpApp : CPAppParams where
  products := ["PartX", "PartY"]
  machines := ["IMM_100T", "IMM_200T"]
  months := [1, 2, 3]
  selling_price := fun p => if p = "PartX" then 5.0 else 8.0
  material_cost := fun p => if p = "PartX" then 2.0 else 3.0
  cycle_time := fun p m =>
    if p = "PartX" then
      (if m = "IMM_100T" then some 30 else if m = "IMM_200T" then some 28 else none)
    else if p = "PartY" then
      (if m = "IMM_100T" then some 0 else if m = "IMM_200T" then some 40 else none)
    else none
  machine_capacity := fun m => if m = "IMM_100T" then 200 else 150

/-- Default (widget default) parameters of `4_Capacity_Planning.py`:
two products, two machines, three months, price 5, material cost 2,
labor-hours per unit 0.05, max demand 2000, cycle time 30 s, machine
capacity 200 h, 500 labor hours per month. -/
def cpDefault : CPParams where
  products := ["Syringe", "IV_Set"]
  machines := ["Arburg_Allrounder_320C", "Engel_Victory_200"]
  months := [1, 2, 3]
  selling_price := fun _ => 5.0
  material_cost := fun _ => 2.0
  labor_hours := fun _ => 0.05
  max_demand_per_month := fun _ => 2000
  cycle_time := fun _ _ => some 30
  machine_capacity := fun _ => 200
  labor_hours_available := 500

/-! ## Result rendering

Every page checks `results.solver.termination_condition ==
TerminationCondition.optimal` and either renders the solution or calls
`st.error(...)` with a page-specific message; nothing else about the
termination condition reaches the user. -/

/-- Solver termination conditions distinguished by the spec. -/
inductive TermCond where
  | optimal
  | infeasible
  | unbounded
  | maxTimeLimit
  | other
deriving DecidableEq

/-- What a page surfaces after a solve: either a success banner plus the
extracted solution payload, or an error banner and nothing else. -/
inductive PageOutput (α : Type) where
  | success (msg : String) (payload : α)
  | failure (msg : String)
deriving DecidableEq

/-- The result branch of `1_Production_Scheduling.py`: render the
extracted solution when the termination condition is optimal, otherwise
`st.error("Optimization failed.")` and no solution values. -/
def psRender {α : Type} (status : TermCond) (payload : α) : PageOutput α :=
  match status with
  | TermCond.optimal => PageOutput.success "Optimal production schedule found!" payload
  | _ => PageOutput.failure "Optimization failed."

/-- The result branch of `3_Material_Blending.py`. -/
def mbRender {α : Type} (status : TermCond) (payload : α) : PageOutput α :=
  match status with
  | TermCond.optimal => PageOutput.success "Blend optimized!" payload
  | _ => PageOutput.failure "Optimization failed. Try adjusting constraints."

/-- The per-machine schedule extraction of `1_Production_Scheduling.py`:
for each job, with `qty = production[j,m].value or 0` (embedded as the
total function `prodVal`), a row `[j, qty, qty*cycle_time/3600]` is
appended only when `qty > 1`. -/
def psReportRows (P : PSParams) (prodVal : String → String → ℚ) (m : String) :
    List (String × ℚ × ℚ) :=
  P.jobs.filterMap (fun j =>
    if 1 < prodVal j m then
      some (j, prodVal j m, prodVal j m * P.cycle_time j m / 3600)
    else none)

/-! ## Concrete candidate points used in the theorems below. -/

/-- No production, every assignment flag set, no slack. -/
def psOnes : PSSol where
  production := fun _ _ => 0
  assignment := fun _ _ => 1
  slack := fun _ => 0

/-- No production, no assignment, all demand absorbed by slack. -/
def psZeroSol : PSSol where
  production := fun _ _ => 0
  assignment := fun _ _ => 0
  slack := fun _ => 1000

/-- No production, every assignment flag set, all demand in slack. -/
def psSetupOnly : PSSol where
  production := fun _ _ => 0
  assignment := fun _ _ => 1
  slack := fun _ => 1000

/-- Both PM types scheduled for every machine in every week. -/
def mntAllOnes : MntSol where
  pm_minor := fun _ _ => 1
  pm_major := fun _ _ => 1

/-- The half-Virgin half-Regrind blend. -/
def blendHalf : String → ℚ :=
  fun n => if n = "Virgin" then 1/2 else if n = "Regrind" then 1/2 else 0

/-- Zero production with one unit of sales everywhere. -/
def cpSalesOnly : CPSol where
  production := fun _ _ _ => 0
  sales := fun _ _ => 1
  slack := fun _ _ => 0

/-- The all-zero capacity-planning point. -/
def cpZero : CPSol where
  production := fun _ _ _ => 0
  sales := fun _ _ => 0
  slack := fun _ _ => 0

/-- A production plan that makes only PartY, in bulk. -/
def cpBigY : String → String → ℕ → ℚ :=
  fun p _ _ => if p = "PartY" then 1000000 else 0

/-- Production value table where Syringe solved to half a unit. -/
def psHalfVal : String → String → ℚ :=
  fun j _ => if j = "Syringe" then 1/2 else 2

/-- Sum of a constant-valued map over a list. -/
theorem list_sum_const {α : Type} (l : List α) (c : ℚ) :
    (l.map (fun _ => c)).sum = (l.length : ℚ) * c := by
  induction l with
  | nil => simp
  | cons a t ih =>
    simp only [List.map_cons, List.sum_cons, List.length_cons, ih]
    push_cast
    ring

/-! ## Claim theorems -/

/-- C1 (amended): in the `4_Capacity_Planning.py` variant, every solution
satisfying the built model's constraints satisfies, for every product p
and month t, sales[p,t] ≤ the sum over machines of production[p,m,t]
(this is the `sales_constraint` of that model).  The claim's universal
form over every variant fails: see the counterexample on the
`capacity_planning_app.py` variant, which builds no sales constraint. -/
theorem cp_sales_bounded_by_production (P : CPParams) (s : CPSol) (h : cpFeasible P s) :
    ∀ p ∈ P.products, ∀ t ∈ P.months,
      s.sales p t ≤ (P.machines.map (fun m => s.production p m t)).sum :=
  h.2.2.2.2

/-- C1 witness: the sales bound evaluated on the default
`4_Capacity_Planning.py` data at the all-zero feasible point. -/
theorem cp_sales_bounded_by_production_witness :
    cpZero.sales "Syringe" 1 ≤ (cpDefault.machines.map (fun m => cpZero.production "Syringe" m 1)).sum :=
  cp_sales_bounded_by_production cpDefault cpZero
    (by refine ⟨⟨?_, ?_, ?_⟩, ?_, ?_, ?_, ?_⟩ <;>
      simp [cpDefault, cpZero, capTimeUsed, cpCapacityOk, cpLaborOk, cpDemandOk, cpSalesOk] <;> norm_num)
    "Syringe" (by simp [cpDefault]) 1 (by simp [cpDefault])

/-- C1 counterexample: the `capacity_planning_app.py` model (which
declares only the capacity constraint) admits a feasible point with zero
production and positive sales, so in that variant a feasible solution
need not satisfy sales[p,t] ≤ Σ_m production[p,m,t]. -/
theorem cp_app_sales_unconstrained :
    cpAppFeasible cpApp cpSalesOnly ∧
    ¬ (∀ p ∈ cpApp.products, ∀ t ∈ cpApp.months,
        cpSalesOnly.sales p t ≤ (cpApp.machines.map (fun m => cpSalesOnly.production p m t)).sum) := by
  constructor
  · refine ⟨?_, ?_, ?_⟩ <;> simp [cpApp, cpSalesOnly, capTimeUsed] <;> norm_num
  · intro h
    have hx := h "PartX" (by simp [cpApp]) 1 (by simp [cpApp])
    simp [cpApp, cpSalesOnly] at hx
    norm_num at hx

/-- C2 (amended): in `1_Production_Scheduling.py` the changeover term of
the objective equals the spec formula Σ over job-machine pairs of
assignment × changeover_time / 60 with no extra factor, while
`production_scheduling_app.py` multiplies that sum by 5. -/
theorem ps_changeover_terms (P : PSParams) (s : PSSol) :
    psObjective P s = psProdTime P s + specChangeoverTerm P s + psSlackPenalty P s
    ∧ psAppObjective P s = psProdTime P s + 5 * specChangeoverTerm P s := by
  constructor
  · rfl
  · unfold psAppObjective psProdTime specChangeoverTerm
    ring

/-- C2 counterexample: with all assignment flags set and no production,
the `production_scheduling_app.py` objective (60) differs from what it
would be if its changeover term were the unweighted spec formula (12),
so the changeover term is not the spec formula in that variant. -/
theorem ps_app_changeover_weighted :
    psAppObjective psApp psOnes ≠ psProdTime psApp psOnes + specChangeoverTerm psApp psOnes := by
  simp [psAppObjective, psProdTime, specChangeoverTerm, psApp, psOnes]
  norm_num

/-- C3 counterexample: on the default `1_Production_Scheduling.py` data
there is no feasible solution with production[j,m] > 0 and
assignment[j,m] = 0 for a job with positive demand: the linking
constraint production ≤ demand × assignment excludes exactly that, so
the claimed existence is false. -/
theorem ps_link_no_unassigned_production :
    ¬ ∃ (j m : String) (s : PSSol),
        j ∈ psDefault.jobs ∧ m ∈ psDefault.machines ∧ 0 < psDefault.demand j ∧
        psFeasible psDefault s ∧ 0 < s.production j m ∧ s.assignment j m = 0 := by
  rintro ⟨j, m, s, hj, hm, _, hfeas, hp, ha⟩
  have hlink := hfeas.2.2.2 j hj m hm
  rw [ha, mul_zero] at hlink
  linarith

/-- C3 (amended): with binary assignment the linking constraint does
force assignment[j,m] = 1 whenever production[j,m] > 0; the looseness is
the converse direction only: it does not force assignment[j,m] = 0 when
production[j,m] = 0, witnessed by the feasible point `psSetupOnly` with
an activated but unused assignment flag. -/
theorem ps_link_forces_assignment (P : PSParams) (s : PSSol) (h : psFeasible P s)
    (j m : String) (hj : j ∈ P.jobs) (hm : m ∈ P.machines) :
    (0 < s.production j m → s.assignment j m = 1) ∧
    (psFeasible psDefault psSetupOnly
      ∧ psSetupOnly.assignment "Syringe" "Arburg_Allrounder_320C" = 1
      ∧ psSetupOnly.production "Syringe" "Arburg_Allrounder_320C" = 0) := by
  constructor
  · intro hp
    rcases h.1.2.1 j hj m hm with h0 | h1
    · exfalso
      have hlink := h.2.2.2 j hj m hm
      rw [h0, mul_zero] at hlink
      linarith
    · exact h1
  · refine ⟨?_, rfl, rfl⟩
    refine ⟨⟨?_, ?_, ?_⟩, ?_, ?_, ?_⟩ <;>
      simp [psDefault, psSetupOnly, psDemandOk, psCapacityOk, psLinkOk] <;> norm_num

/-- C3 witness: the amended statement instantiated on the default data
at the feasible all-slack point. -/
theorem ps_link_forces_assignment_witness :
    (0 < psZeroSol.production "Syringe" "Arburg_Allrounder_320C" →
      psZeroSol.assignment "Syringe" "Arburg_Allrounder_320C" = 1) ∧
    (psFeasible psDefault psSetupOnly
      ∧ psSetupOnly.assignment "Syringe" "Arburg_Allrounder_320C" = 1
      ∧ psSetupOnly.production "Syringe" "Arburg_Allrounder_320C" = 0) :=
  ps_link_forces_assignment psDefault psZeroSol
    (by refine ⟨⟨?_, ?_, ?_⟩, ?_, ?_, ?_⟩ <;>
      simp [psDefault, psZeroSol, psDemandOk, psCapacityOk, psLinkOk] <;> norm_num)
    "Syringe" "Arburg_Allrounder_320C" (by simp [psDefault]) (by simp [psDefault])

/-- C4: the `2_Maintenance_Scheduling.py` model does not forbid
scheduling minor and major PM for the same machine in the same week:
whenever the weekly labor availability covers both tasks on every
machine, the point with every PM flag set is labor-feasible, has
pm_minor[m,w] = pm_major[m,w] = 1, and its failure-risk contribution
(1 − pm_minor − pm_major) × failure_penalty × (w/num_weeks) is strictly
negative. -/
theorem mnt_double_pm_negative_risk (P : MntParams)
    (hpen : 0 < P.failure_penalty)
    (hlab : ∀ w ∈ P.weeks,
      (P.machines.length : ℚ) * (P.dur_minor + P.dur_major) ≤ P.labor_available w)
    (m : String) (w : ℕ) (hm : m ∈ P.machines) (hw : w ∈ P.weeks) :
    ∃ s : MntSol, mntVarsOk P s ∧ s.pm_minor m w = 1 ∧ s.pm_major m w = 1
      ∧ mntLaborOk P s ∧ mntFailContrib P s m w < 0 := by
  refine ⟨mntAllOnes, ⟨fun _ _ _ _ => Or.inr rfl, fun _ _ _ _ => Or.inr rfl⟩, rfl, rfl, ?_, ?_⟩
  · intro w2 hw2
    calc (P.machines.map (fun mm =>
            mntAllOnes.pm_minor mm w2 * P.dur_minor + mntAllOnes.pm_major mm w2 * P.dur_major)).sum
        = (P.machines.map (fun _ => P.dur_minor + P.dur_major)).sum := by
          simp [mntAllOnes]
      _ = (P.machines.length : ℚ) * (P.dur_minor + P.dur_major) := list_sum_const _ _
      _ ≤ P.labor_available w2 := hlab w2 hw2
  · have hw1 : 1 ≤ w ∧ 0 < P.num_weeks := by
      simp [MntParams.weeks] at hw
      obtain ⟨k, hk, rfl⟩ := hw
      exact ⟨Nat.le_add_left 1 k, lt_of_le_of_lt (Nat.zero_le k) hk⟩
    have hwQ : (0:ℚ) < (w:ℚ) := by exact_mod_cast lt_of_lt_of_le Nat.zero_lt_one hw1.1
    have hnQ : (0:ℚ) < (P.num_weeks:ℚ) := by exact_mod_cast hw1.2
    have hpos := mul_pos hpen (div_pos hwQ hnQ)
    have hc : mntFailContrib P mntAllOnes m w
        = -(P.failure_penalty * ((w:ℚ)/(P.num_weeks:ℚ))) := by
      simp only [mntFailContrib, mntAllOnes]
      ring
    rw [hc]
    linarith

/-- C4 witness: the double-PM point on the default
`2_Maintenance_Scheduling.py` data, machine Arburg, week 1. -/
theorem mnt_double_pm_negative_risk_witness :
    ∃ s : MntSol, mntVarsOk mntDefault s
      ∧ s.pm_minor "Arburg_Allrounder_320C" 1 = 1
      ∧ s.pm_major "Arburg_Allrounder_320C" 1 = 1
      ∧ mntLaborOk mntDefault s
      ∧ mntFailContrib mntDefault s "Arburg_Allrounder_320C" 1 < 0 :=
  mnt_double_pm_negative_risk mntDefault
    (by norm_num [mntDefault])
    (by simp [mntDefault, MntParams.weeks]; norm_num)
    "Arburg_Allrounder_320C" 1 (by simp [mntDefault]) (by decide)

/-- C5: in every Material Blending variant, every point satisfying the
built model's constraints has its fractions summing to exactly 1,
blended strength at least min_strength and blended density at most
max_density (these are the `model.mix`, `model.strength` and
`model.density` constraints; in particular any optimal solution, being
feasible, satisfies them). -/
theorem blend_feasible_meets_spec (P : BlendParams) (x : String → ℚ)
    (h : blendFeasible P x) :
    blendMixSum P x = 1 ∧ blendStrength P x ≥ P.min_strength
      ∧ blendDensity P x ≤ P.max_density :=
  ⟨h.2.1, h.2.2.1, h.2.2.2⟩

/-- C5 witness: the three properties evaluated on the
`material_blending_app.py` data at the feasible half-Virgin
half-Regrind blend. -/
theorem blend_feasible_meets_spec_witness :
    blendMixSum blendApp blendHalf = 1
    ∧ blendStrength blendApp blendHalf ≥ blendApp.min_strength
    ∧ blendDensity blendApp blendHalf ≤ blendApp.max_density :=
  blend_feasible_meets_spec blendApp blendHalf
    (by refine ⟨?_, ?_, ?_, ?_⟩ <;>
      simp [blendApp, blendHalf, blendMixSum, blendStrength, blendDensity] <;> norm_num)

/-- C6: in the Production Scheduling variant with slack
(`1_Production_Scheduling.py`), every point satisfying the built model's
constraints satisfies, for every job, Σ_m production + slack ≥ demand,
and, for every machine, Σ_j production×cycle_time/3600 +
(Σ_j assignment)×changeover_time/60 ≤ available_hours. -/
theorem ps_feasible_demand_capacity (P : PSParams) (s : PSSol) (h : psFeasible P s) :
    (∀ j ∈ P.jobs,
      (P.machines.map (fun m => s.production j m)).sum + s.slack j ≥ P.demand j)
    ∧ (∀ m ∈ P.machines,
        (P.jobs.map (fun j => s.production j m * P.cycle_time j m / 3600)).sum
          + (P.jobs.map (fun j => s.assignment j m)).sum * P.changeover_time / 60
          ≤ P.available_hours m) :=
  ⟨h.2.1, h.2.2.1⟩

/-- C6 witness: the demand inequality evaluated on the default data at
the feasible all-slack point, job Syringe. -/
theorem ps_feasible_demand_capacity_witness :
    (psDefault.machines.map (fun m => psZeroSol.production "Syringe" m)).sum
      + psZeroSol.slack "Syringe" ≥ psDefault.demand "Syringe" :=
  (ps_feasible_demand_capacity psDefault psZeroSol
    (by refine ⟨⟨?_, ?_, ?_⟩, ?_, ?_, ?_⟩ <;>
      simp [psDefault, psZeroSol, psDemandOk, psCapacityOk, psLinkOk] <;> norm_num)).1
    "Syringe" (by simp [psDefault])

/-- C7 counterexample: the pages map infeasible, unbounded and timeout
terminations to the identical user-visible output, so the distinct
non-optimal statuses are collapsed into one generic failure message, not
propagated verbatim to the caller. -/
theorem render_collapses_nonoptimal :
    psRender TermCond.infeasible (0 : ℚ) = psRender TermCond.unbounded (0 : ℚ)
    ∧ psRender TermCond.infeasible (0 : ℚ) = psRender TermCond.maxTimeLimit (0 : ℚ)
    ∧ mbRender TermCond.infeasible (0 : ℚ) = mbRender TermCond.unbounded (0 : ℚ) :=
  ⟨rfl, rfl, rfl⟩

/-- C7 (amended): on any non-optimal termination condition the
Production Scheduling and Material Blending pages surface their fixed
failure message and render no solution values, and solution values are
rendered only when the status is optimal; the non-optimal statuses are
however not distinguished from one another. -/
theorem render_only_optimal {α : Type} (status : TermCond) (payload : α) :
    (status ≠ TermCond.optimal →
      psRender status payload = PageOutput.failure "Optimization failed."
      ∧ mbRender status payload
          = PageOutput.failure "Optimization failed. Try adjusting constraints.")
    ∧ (∀ msg p2, psRender status payload = PageOutput.success msg p2 →
        status = TermCond.optimal)
    ∧ (∀ msg p2, mbRender status payload = PageOutput.success msg p2 →
        status = TermCond.optimal) := by
  cases status <;> simp [psRender, mbRender]

/-- C7 witness: the failure outputs at the infeasible status. -/
theorem render_only_optimal_witness :
    psRender TermCond.infeasible (0:ℚ) = PageOutput.failure "Optimization failed."
    ∧ mbRender TermCond.infeasible (0:ℚ)
        = PageOutput.failure "Optimization failed. Try adjusting constraints." :=
  (render_only_optimal TermCond.infeasible (0:ℚ)).1 (by decide)

/-- Lower bound for the `material_blending_app.py` instance: every
feasible blend costs at least 7/4 $/kg. -/
theorem blend_app_cost_lb (y : String → ℚ) (hy : blendFeasible blendApp y) :
    7/4 ≤ blendCost blendApp y := by
  have ha0 : 0 ≤ y "Additive" :=
    (hy.1 ("Additive", ⟨5.0, 50, 1.2⟩) (by simp [blendApp])).1
  have hmix := hy.2.1
  have hstr := hy.2.2.1
  simp only [blendMixSum, blendApp, List.map_cons, List.map_nil, List.sum_cons,
    List.sum_nil] at hmix
  simp only [blendStrength, blendApp, List.map_cons, List.map_nil, List.sum_cons,
    List.sum_nil] at hstr
  simp only [blendCost, blendApp, List.map_cons, List.map_nil, List.sum_cons, List.sum_nil]
  norm_num at hmix hstr ⊢
  linarith

/-- C8: for the `material_blending_app.py` instance (Virgin 2.5/35/1.05,
Regrind 1.0/25/0.95, Additive 5.0/50/1.2, min_strength 30, max_density
1.1), every cost-minimal feasible blend has Additive fraction exactly 0
and strictly positive Virgin and Regrind fractions. -/
theorem blend_app_optimal_mix (x : String → ℚ)
    (hf : blendFeasible blendApp x)
    (hopt : ∀ y : String → ℚ, blendFeasible blendApp y →
      blendCost blendApp x ≤ blendCost blendApp y) :
    x "Additive" = 0 ∧ 0 < x "Virgin" ∧ 0 < x "Regrind" := by
  have ha0 : 0 ≤ x "Additive" :=
    (hf.1 ("Additive", ⟨5.0, 50, 1.2⟩) (by simp [blendApp])).1
  have hmix := hf.2.1
  have hstr := hf.2.2.1
  simp only [blendMixSum, blendApp, List.map_cons, List.map_nil, List.sum_cons,
    List.sum_nil] at hmix
  simp only [blendStrength, blendApp, List.map_cons, List.map_nil, List.sum_cons,
    List.sum_nil] at hstr
  have hle := hopt blendHalf (by
    refine ⟨?_, ?_, ?_, ?_⟩ <;>
      simp [blendApp, blendHalf, blendMixSum, blendStrength, blendDensity] <;> norm_num)
  have hch : blendCost blendApp blendHalf = 7/4 := by
    simp [blendApp, blendHalf, blendCost]
    norm_num
  rw [hch] at hle
  simp only [blendCost, blendApp, List.map_cons, List.map_nil, List.sum_cons,
    List.sum_nil] at hle
  norm_num at hmix hstr hle
  refine ⟨le_antisymm (by linarith) ha0, by linarith, by linarith⟩

/-- C8 witness: the half-Virgin half-Regrind blend is feasible and
cost-minimal, and exhibits the claimed structure. -/
theorem blend_app_optimal_mix_witness :
    blendHalf "Additive" = 0 ∧ 0 < blendHalf "Virgin" ∧ 0 < blendHalf "Regrind" :=
  blend_app_optimal_mix blendHalf
    (by refine ⟨?_, ?_, ?_, ?_⟩ <;>
      simp [blendApp, blendHalf, blendMixSum, blendStrength, blendDensity] <;> norm_num)
    (fun y hy => by
      have h1 : blendCost blendApp blendHalf = 7/4 := by
        simp [blendApp, blendHalf, blendCost]
        norm_num
      rw [h1]
      exact blend_app_cost_lb y hy)

/-- C9: a job appears among the rendered per-machine schedule rows of
`1_Production_Scheduling.py` exactly when it is a declared job whose
solved quantity is strictly greater than 1; in particular a pair whose
quantity is positive but at most 1 is omitted. -/
theorem ps_report_rows_filter (P : PSParams) (prodVal : String → String → ℚ)
    (m j : String) :
    ((∃ q t, (j, q, t) ∈ psReportRows P prodVal m) ↔ (j ∈ P.jobs ∧ 1 < prodVal j m))
    ∧ (0 < prodVal j m → prodVal j m ≤ 1 →
        ¬ ∃ q t, (j, q, t) ∈ psReportRows P prodVal m) := by
  have key : ∀ q t, (j, q, t) ∈ psReportRows P prodVal m ↔
      (j ∈ P.jobs ∧ 1 < prodVal j m ∧ q = prodVal j m
        ∧ t = prodVal j m * P.cycle_time j m / 3600) := by
    intro q t
    constructor
    · intro hmem
      rw [psReportRows, List.mem_filterMap] at hmem
      obtain ⟨a, ha, hfa⟩ := hmem
      split at hfa
      · rename_i h1
        rw [Option.some.injEq, Prod.mk.injEq, Prod.mk.injEq] at hfa
        obtain ⟨rfl, hq, ht⟩ := hfa
        exact ⟨ha, h1, hq.symm, ht.symm⟩
      · exact Option.noConfusion hfa
    · rintro ⟨hj, h1, rfl, rfl⟩
      rw [psReportRows, List.mem_filterMap]
      exact ⟨j, hj, by rw [if_pos h1]⟩
  constructor
  · constructor
    · rintro ⟨q, t, hqt⟩
      have hk := (key q t).mp hqt
      exact ⟨hk.1, hk.2.1⟩
    · rintro ⟨hj, h1⟩
      exact ⟨_, _, (key _ _).mpr ⟨hj, h1, rfl, rfl⟩⟩
  · intro hpos hle hex
    obtain ⟨q, t, hqt⟩ := hex
    have hk := (key q t).mp hqt
    linarith [hk.2.1]

/-- C9 witness: Syringe solved to half a unit produces no report row on
the default data. -/
theorem ps_report_rows_filter_witness :
    ¬ ∃ q t, ("Syringe", q, t) ∈ psReportRows psDefault psHalfVal "Arburg_Allrounder_320C" :=
  (ps_report_rows_filter psDefault psHalfVal "Arburg_Allrounder_320C" "Syringe").2
    (by norm_num [psHalfVal]) (by norm_num [psHalfVal])

/-- C10: in both Capacity Planning variants, a product whose cycle time
on a machine is missing from the mapping or equal to 0 contributes
exactly 0 to that machine's used time, and the used time, hence the
machine-capacity constraint, does not depend on that product's
production on that machine at all. -/
theorem cap_zero_cycle_no_restriction (products : List String)
    (cyc : String → String → Option ℚ) (p0 m : String) (t : ℕ)
    (prod1 prod2 : String → String → ℕ → ℚ)
    (h0 : cyc p0 m = none ∨ cyc p0 m = some 0)
    (hagree : ∀ p, p ≠ p0 → prod1 p m t = prod2 p m t) :
    prod1 p0 m t * ((cyc p0 m).getD 0) / 3600 = 0
    ∧ capTimeUsed products cyc prod1 m t = capTimeUsed products cyc prod2 m t := by
  have hz : (cyc p0 m).getD 0 = 0 := by
    rcases h0 with h | h <;> simp [h]
  constructor
  · rw [hz]
    ring
  · unfold capTimeUsed
    induction products with
    | nil => simp
    | cons p ps ih =>
      simp only [List.map_cons, List.sum_cons]
      rw [ih]
      congr 1
      by_cases hp : p = p0
      · subst hp
        rw [hz]
        ring
      · rw [hagree p hp]

/-- C10 witness: PartY on IMM_100T has cycle time 0 in the
`capacity_planning_app.py` data, so a million PartY units change nothing
in that machine's used time. -/
theorem cap_zero_cycle_no_restriction_witness :
    cpBigY "PartY" "IMM_100T" 1 * ((cpApp.cycle_time "PartY" "IMM_100T").getD 0) / 3600 = 0
    ∧ capTimeUsed cpApp.products cpApp.cycle_time cpBigY "IMM_100T" 1
      = capTimeUsed cpApp.products cpApp.cycle_time (fun _ _ _ => 0) "IMM_100T" 1 :=
  cap_zero_cycle_no_restriction cpApp.products cpApp.cycle_time "PartY" "IMM_100T" 1
    cpBigY (fun _ _ _ => 0)
    (by decide)
    (fun p hp => by simp [cpBigY, hp])
